import Mathlib

/-!
Shallow embedding of the arikawa state/API layer.

Sources embedded:
- src/state/state.go   (the State read-through orchestrator)
- src/api/guild.go     (Client.Guilds pagination and Client.GuildsRange)
- src/unnamed/part_000 (the Store interface; the reference in-memory store is
  not in the sources and is modelled from the spec where needed)

Go functions returning (value, error) pairs are modelled as
(Option value) x (Option Err) for pointer results and
(List value) x (Option Err) for slice results (a nil slice is []).
State accessors additionally thread the store state and count the number of
pull-API (Session) calls they issue.
-/

namespace Arikawa

/-- A 64-bit snowflake identifier, modelled as Nat. A zero snowflake is the
Go zero value, i.e. `Snowflake.Valid()` is false exactly at 0 on the paths
the state code uses. -/
abbrev Snowflake := Nat

structure User where
  id : Snowflake
  username : String
  deriving Repr, DecidableEq

structure Channel where
  id : Snowflake
  guildID : Snowflake
  deriving Repr, DecidableEq

structure Guild where
  id : Snowflake
  name : String
  deriving Repr, DecidableEq

structure Member where
  user : User
  nick : String
  deriving Repr, DecidableEq

structure Message where
  id : Snowflake
  channelID : Snowflake
  guildID : Snowflake
  author : User
  deriving Repr, DecidableEq

structure Role where
  id : Snowflake
  name : String
  color : Nat
  deriving Repr, DecidableEq

structure Emoji where
  id : Snowflake
  name : String
  deriving Repr, DecidableEq

structure Presence where
  user : User
  status : String
  deriving Repr, DecidableEq

/-- Errors: the store not-found sentinel (ErrStoreNotFound in
src/unnamed/part_000), other store failures, and pull-API failures. -/
inductive Err where
  | storeNotFound
  | storeFail (code : Nat)
  | apiFail (code : Nat)
  deriving Repr, DecidableEq

/-- A Go (ptr, error) return pair. -/
abbrev GoRes (α : Type) := Option α × Option Err

/-- The Store interface from src/unnamed/part_000 (StoreGetter and the
StoreModifier setters used by the accessors under study; the Remove/Reset
operations are never called by the accessors and are omitted). A store is a
value of type σ; getters read it, setters return the new state together with
the Go error. -/
structure Store (σ : Type) where
  self : σ → GoRes User
  channel : Snowflake → σ → GoRes Channel
  channels : Snowflake → σ → List Channel × Option Err
  privateChannels : σ → List Channel × Option Err
  emoji : Snowflake → Snowflake → σ → GoRes Emoji
  emojis : Snowflake → σ → List Emoji × Option Err
  guild : Snowflake → σ → GoRes Guild
  guilds : σ → List Guild × Option Err
  member : Snowflake → Snowflake → σ → GoRes Member
  members : Snowflake → σ → List Member × Option Err
  message : Snowflake → Snowflake → σ → GoRes Message
  messages : Snowflake → σ → List Message × Option Err
  maxMessages : σ → Nat
  presence : Snowflake → Snowflake → σ → GoRes Presence
  presences : Snowflake → σ → List Presence × Option Err
  role : Snowflake → Snowflake → σ → GoRes Role
  roles : Snowflake → σ → List Role × Option Err
  selfSet : User → σ → σ × Option Err
  channelSet : Channel → σ → σ × Option Err
  emojiSet : Snowflake → List Emoji → σ → σ × Option Err
  guildSet : Guild → σ → σ × Option Err
  memberSet : Snowflake → Member → σ → σ × Option Err
  messageSet : Message → σ → σ × Option Err
  presenceSet : Snowflake → Presence → σ → σ × Option Err
  roleSet : Snowflake → Role → σ → σ × Option Err

/-- The pull API (session.Session) plus the gateway directive used by
State.Members. These are external collaborators; each call is pure from the
state layer's point of view. -/
structure Session where
  me : Except Err User
  channel : Snowflake → Except Err Channel
  channels : Snowflake → Except Err (List Channel)
  emojis : Snowflake → Except Err (List Emoji)
  guild : Snowflake → Except Err Guild
  guilds : Nat → Except Err (List Guild)
  member : Snowflake → Snowflake → Except Err Member
  members : Snowflake → Nat → Except Err (List Member)
  message : Snowflake → Snowflake → Except Err Message
  messages : Snowflake → Nat → Except Err (List Message)
  roles : Snowflake → Except Err (List Role)
  requestGuildMembers : Snowflake → Option Err

/-- MaxFetchGuilds from src/state/state.go. -/
def maxFetchGuilds : Nat := 100

/-- MaxFetchMembers from src/state/state.go. -/
def maxFetchMembers : Nat := 1000

/-- discord.DefaultMemberColor (outside the sources); its concrete value is
irrelevant to the claims, only its role as the documented default. -/
def defaultMemberColor : Nat := 0

/-- Writes each element of a list through a store setter, stopping at the
first error, as the Go write-back loops do. -/
def setEach {σ α : Type} (set : α → σ → σ × Option Err) :
    List α → σ → σ × Option Err
  | [], s => (s, none)
  | a :: rest, s =>
    match set a s with
    | (s2, some e) => (s2, some e)
    | (s2, none) => setEach set rest s2

/-- State.Self from src/state/state.go. Returns (value, error), the store
state after the call, and the number of pull-API calls issued. -/
def stateSelf {σ : Type} (st : Store σ) (ses : Session) (s : σ) :
    GoRes User × σ × Nat :=
  match st.self s with
  | (u, none) => ((u, none), s, 0)
  | (_, some _) =>
    match ses.me with
    | .error e => ((none, some e), s, 1)
    | .ok u =>
      match st.selfSet u s with
      | (s2, werr) => ((some u, werr), s2, 1)

/-- State.Channel from src/state/state.go. -/
def stateChannel {σ : Type} (st : Store σ) (ses : Session) (id : Snowflake)
    (s : σ) : GoRes Channel × σ × Nat :=
  match st.channel id s with
  | (c, none) => ((c, none), s, 0)
  | (_, some _) =>
    match ses.channel id with
    | .error e => ((none, some e), s, 1)
    | .ok c =>
      match st.channelSet c s with
      | (s2, werr) => ((some c, werr), s2, 1)

/-- State.Channels from src/state/state.go: on a cold fetch every returned
channel is written back individually; a write error returns (nil, err). -/
def stateChannels {σ : Type} (st : Store σ) (ses : Session)
    (guildID : Snowflake) (s : σ) : (List Channel × Option Err) × σ × Nat :=
  match st.channels guildID s with
  | (cs, none) => ((cs, none), s, 0)
  | (_, some _) =>
    match ses.channels guildID with
    | .error e => (([], some e), s, 1)
    | .ok cs =>
      match setEach st.channelSet cs s with
      | (s2, some e) => (([], some e), s2, 1)
      | (s2, none) => ((cs, none), s2, 1)

/-- State.Emoji from src/state/state.go: on miss, fetches and writes back the
whole guild emoji collection, then scans; absence after a successful fetch
yields the store not-found sentinel. The Go scan returns from inside the
loop, so the returned pointer observes the current (matching) element. -/
def stateEmoji {σ : Type} (st : Store σ) (ses : Session)
    (guildID emojiID : Snowflake) (s : σ) : GoRes Emoji × σ × Nat :=
  match st.emoji guildID emojiID s with
  | (e, none) => ((e, none), s, 0)
  | (_, some _) =>
    match ses.emojis guildID with
    | .error e => ((none, some e), s, 1)
    | .ok es =>
      match st.emojiSet guildID es s with
      | (s2, some e) => ((none, some e), s2, 1)
      | (s2, none) =>
        match es.find? (fun e => e.id == emojiID) with
        | some e => ((some e, none), s2, 1)
        | none => ((none, some Err.storeNotFound), s2, 1)

/-- State.Emojis from src/state/state.go: returns the fetched collection
together with whatever error the single write-back produced. -/
def stateEmojis {σ : Type} (st : Store σ) (ses : Session)
    (guildID : Snowflake) (s : σ) : (List Emoji × Option Err) × σ × Nat :=
  match st.emojis guildID s with
  | (es, none) => ((es, none), s, 0)
  | (_, some _) =>
    match ses.emojis guildID with
    | .error e => (([], some e), s, 1)
    | .ok es =>
      match st.emojiSet guildID es s with
      | (s2, werr) => ((es, werr), s2, 1)

/-- State.Guild from src/state/state.go. -/
def stateGuild {σ : Type} (st : Store σ) (ses : Session) (id : Snowflake)
    (s : σ) : GoRes Guild × σ × Nat :=
  match st.guild id s with
  | (g, none) => ((g, none), s, 0)
  | (_, some _) =>
    match ses.guild id with
    | .error e => ((none, some e), s, 1)
    | .ok g =>
      match st.guildSet g s with
      | (s2, werr) => ((some g, werr), s2, 1)

/-- State.Guilds from src/state/state.go: cold fill fetches one page bounded
by MaxFetchGuilds and writes each guild back. -/
def stateGuilds {σ : Type} (st : Store σ) (ses : Session) (s : σ) :
    (List Guild × Option Err) × σ × Nat :=
  match st.guilds s with
  | (gs, none) => ((gs, none), s, 0)
  | (_, some _) =>
    match ses.guilds maxFetchGuilds with
    | .error e => (([], some e), s, 1)
    | .ok gs =>
      match setEach st.guildSet gs s with
      | (s2, some e) => (([], some e), s2, 1)
      | (s2, none) => ((gs, none), s2, 1)

/-- State.Member from src/state/state.go. -/
def stateMember {σ : Type} (st : Store σ) (ses : Session)
    (guildID userID : Snowflake) (s : σ) : GoRes Member × σ × Nat :=
  match st.member guildID userID s with
  | (m, none) => ((m, none), s, 0)
  | (_, some _) =>
    match ses.member guildID userID with
    | .error e => ((none, some e), s, 1)
    | .ok m =>
      match st.memberSet guildID m s with
      | (s2, werr) => ((some m, werr), s2, 1)

/-- State.Members from src/state/state.go: after writing back every member,
the gateway RequestGuildMembers directive is issued and its error is returned
alongside the already-fetched members. -/
def stateMembers {σ : Type} (st : Store σ) (ses : Session)
    (guildID : Snowflake) (s : σ) : (List Member × Option Err) × σ × Nat :=
  match st.members guildID s with
  | (ms, none) => ((ms, none), s, 0)
  | (_, some _) =>
    match ses.members guildID maxFetchMembers with
    | .error e => (([], some e), s, 1)
    | .ok ms =>
      match setEach (fun m s => st.memberSet guildID m s) ms s with
      | (s2, some e) => (([], some e), s2, 1)
      | (s2, none) => ((ms, ses.requestGuildMembers guildID), s2, 1)

/-- State.Message from src/state/state.go: after a successful fetch the
owning guild is resolved through State.Channel (which may itself fetch and
write back) and stamped onto the message when that lookup returns no error.
A store returning a nil channel with a nil error would make the Go code
dereference nil; every store considered here returns a value exactly when its
error is nil, and that case leaves the message unstamped. -/
def stateMessage {σ : Type} (st : Store σ) (ses : Session)
    (channelID messageID : Snowflake) (s : σ) : GoRes Message × σ × Nat :=
  match st.message channelID messageID s with
  | (m, none) => ((m, none), s, 0)
  | (_, some _) =>
    match ses.message channelID messageID with
    | .error e => ((none, some e), s, 1)
    | .ok m =>
      match stateChannel st ses channelID s with
      | (cres, s2, n) =>
        let m2 :=
          match cres with
          | (some c, none) => { m with guildID := c.guildID }
          | _ => m
        match st.messageSet m2 s2 with
        | (s3, werr) => ((some m2, werr), s3, 1 + n)

/-- The fetch path of State.Messages from src/state/state.go: fetch up to 100
messages, resolve the guild once via State.Channel (0 when that lookup
errors), stamp it onto every fetched message, write each message back, then
either flag the channel as small (fetched count below the cap) or slice to
the cap. The Go code stamps and writes in the same loop; stamping element i
does not affect writing element j, so stamping first is observably equal. -/
def stateMessagesFetch {σ : Type} (st : Store σ) (ses : Session)
    (channelID : Snowflake) (s : σ) (few : List Snowflake) (maxMsgs : Nat) :
    (List Message × Option Err) × σ × List Snowflake × Nat :=
  match ses.messages channelID 100 with
  | .error e => (([], some e), s, few, 1)
  | .ok ms =>
    match stateChannel st ses channelID s with
    | (cres, s2, n) =>
      let guildID : Snowflake :=
        match cres with
        | (some c, none) => c.guildID
        | _ => 0
      let ms2 := ms.map (fun m => { m with guildID := guildID })
      match setEach st.messageSet ms2 s2 with
      | (s3, some e) => (([], some e), s3, few, 1 + n)
      | (s3, none) =>
        if ms2.length < maxMsgs then
          ((ms2, none), s3, few ++ [channelID], 1 + n)
        else
          ((ms2.take maxMsgs, none), s3, few, 1 + n)

/-- State.Messages from src/state/state.go: warm path returns the stored
messages when the store already holds at least MaxMessages of them or when
the channel is flagged in the fewMessages memo; otherwise it falls through to
the fetch path. The fewMessages memo is threaded explicitly. -/
def stateMessages {σ : Type} (st : Store σ) (ses : Session)
    (channelID : Snowflake) (s : σ) (few : List Snowflake) :
    (List Message × Option Err) × σ × List Snowflake × Nat :=
  let maxMsgs := st.maxMessages s
  match st.messages channelID s with
  | (ms, none) =>
    if maxMsgs ≤ ms.length then ((ms, none), s, few, 0)
    else if few.contains channelID then ((ms, none), s, few, 0)
    else stateMessagesFetch st ses channelID s few maxMsgs
  | (_, some _) => stateMessagesFetch st ses channelID s few maxMsgs

/-- State.Presence from src/state/state.go: a verbatim store read. -/
def statePresence {σ : Type} (st : Store σ) (ses : Session)
    (guildID userID : Snowflake) (s : σ) : GoRes Presence × σ × Nat :=
  (st.presence guildID userID s, s, 0)

/-- State.Presences from src/state/state.go: a verbatim store read. -/
def statePresences {σ : Type} (st : Store σ) (ses : Session)
    (guildID : Snowflake) (s : σ) : (List Presence × Option Err) × σ × Nat :=
  (st.presences guildID s, s, 0)

/-- The scan-and-write-back loop of State.Role from src/state/state.go.

The Go loop is
  for _, r := range rs { if r.ID == roleID { role = &r }; if err := s.RoleSet(guildID, &r); err != nil { return role, err } }
and this repository predates Go 1.22 per-iteration loop variables, so
role = &r aliases the single range variable r. The model carries the range
variable cell (the last value assigned to r) and whether role points at it;
dereferencing role at a return point yields the cell's value at that moment. -/
def roleFillLoop {σ : Type} (roleSet : Snowflake → Role → σ → σ × Option Err)
    (guildID roleID : Snowflake) :
    List Role → σ → Option Role → Bool → GoRes Role × σ
  | [], s, cell, aliased => ((if aliased then cell else none, none), s)
  | r :: rest, s, _, aliased =>
    let aliased2 := aliased || (r.id == roleID)
    match roleSet guildID r s with
    | (s2, some e) => ((if aliased2 then some r else none, some e), s2)
    | (s2, none) => roleFillLoop roleSet guildID roleID rest s2 (some r) aliased2

/-- State.Role from src/state/state.go: on miss, fetches the guild's full
role collection and runs the scan-and-write-back loop. -/
def stateRole {σ : Type} (st : Store σ) (ses : Session)
    (guildID roleID : Snowflake) (s : σ) : GoRes Role × σ × Nat :=
  match st.role guildID roleID s with
  | (r, none) => ((r, none), s, 0)
  | (_, some _) =>
    match ses.roles guildID with
    | .error e => ((none, some e), s, 1)
    | .ok rs =>
      match roleFillLoop st.roleSet guildID roleID rs s none false with
      | (res, s2) => (res, s2, 1)

/-- State.Roles from src/state/state.go: writes back all fetched roles and
returns the fetched collection together with the first write error, if any. -/
def stateRoles {σ : Type} (st : Store σ) (ses : Session)
    (guildID : Snowflake) (s : σ) : (List Role × Option Err) × σ × Nat :=
  match st.roles guildID s with
  | (rs, none) => ((rs, none), s, 0)
  | (_, some _) =>
    match ses.roles guildID with
    | .error e => (([], some e), s, 1)
    | .ok rs =>
      match setEach (fun r s => st.roleSet guildID r s) rs s with
      | (s2, werr) => ((rs, werr), s2, 1)

/-- State.MemberDisplayName from src/state/state.go: a strict helper — it
propagates the member-lookup error and only substitutes the member's username
when the nickname is empty. The (nil member, nil error) case is a Go nil
dereference and is unreachable for the stores considered here. -/
def memberDisplayName {σ : Type} (st : Store σ) (ses : Session)
    (guildID userID : Snowflake) (s : σ) : (String × Option Err) × σ × Nat :=
  match stateMember st ses guildID userID s with
  | ((_, some e), s2, n) => (("", some e), s2, n)
  | ((some m, none), s2, n) =>
    if m.nick = "" then ((m.user.username, none), s2, n)
    else ((m.nick, none), s2, n)
  | ((none, none), s2, n) => (("", none), s2, n)

/-- State.AuthorDisplayName from src/state/state.go: best effort — any
failure from MemberDisplayName falls back to the author's username, and a
message with no valid guild id short-circuits to the author's username. -/
def authorDisplayName {σ : Type} (st : Store σ) (ses : Session)
    (msg : Message) (s : σ) : String × σ × Nat :=
  if msg.guildID = 0 then (msg.author.username, s, 0)
  else
    match memberDisplayName st ses msg.guildID msg.author.id s with
    | ((n, none), s2, k) => (n, s2, k)
    | ((_, some _), s2, k) => (msg.author.username, s2, k)

/-- State.MemberColor from src/state/state.go: best effort — any failure of
the member or guild lookup yields discord.DefaultMemberColor. The combiner
discord.MemberColor lives outside the sources and is passed as cc. The
(nil value, nil error) lookup outcomes are Go nil dereferences and are
unreachable for the stores considered here. -/
def memberColor {σ : Type} (cc : Guild → Member → Nat) (st : Store σ)
    (ses : Session) (guildID userID : Snowflake) (s : σ) : Nat × σ × Nat :=
  match stateMember st ses guildID userID s with
  | ((_, some _), s2, n) => (defaultMemberColor, s2, n)
  | ((none, none), s2, n) => (defaultMemberColor, s2, n)
  | ((some m, none), s2, n) =>
    match stateGuild st ses guildID s2 with
    | ((_, some _), s3, k) => (defaultMemberColor, s3, n + k)
    | ((none, none), s3, k) => (defaultMemberColor, s3, n + k)
    | ((some g, none), s3, k) => (cc g m, s3, n + k)

/-- State.AuthorColor from src/state/state.go. -/
def authorColor {σ : Type} (cc : Guild → Member → Nat) (st : Store σ)
    (ses : Session) (msg : Message) (s : σ) : Nat × σ × Nat :=
  if msg.guildID = 0 then (defaultMemberColor, s, 0)
  else memberColor cc st ses msg.guildID msg.author.id s

/-- Modelled from the spec: the reference concurrency-safe in-memory store
(the DefaultStore named in src/unnamed/part_000 and src/state/state.go is not
among the sources). Per spec sections 3 and 4.1 it keys each entity by its
identifier (pairs for guild-scoped entities), returns the not-found sentinel
for absent keys and for empty collections, stores independent copies, and its
writes never fail. -/
structure StoreState where
  selfU : Option User
  channelList : List Channel
  guildList : List Guild
  memberList : List (Snowflake × Member)
  messageList : List Message
  presenceList : List (Snowflake × Presence)
  roleList : List (Snowflake × Role)
  emojiList : List (Snowflake × List Emoji)
  maxMsgs : Nat
  deriving Repr, DecidableEq

/-- Insert-or-overwrite by key, appending new entries at the end. -/
def upsertBy {α : Type} (sameKey : α → α → Bool) (a : α) : List α → List α
  | [] => [a]
  | b :: rest => if sameKey b a then a :: rest else b :: upsertBy sameKey a rest

/-- Read a singular entity: found value or the not-found sentinel. -/
def lookupRes {α : Type} (l : List α) (p : α → Bool) : GoRes α :=
  match l.find? p with
  | some a => (some a, none)
  | none => (none, some Err.storeNotFound)

/-- Read a collection: the matching entries, or the not-found sentinel when
there are none. -/
def collectRes {α : Type} (l : List α) (p : α → Bool) :
    List α × Option Err :=
  let r := l.filter p
  if r.isEmpty then ([], some Err.storeNotFound) else (r, none)

/-- Key equality for guild-scoped member records. -/
def memberKeyEq (a b : Snowflake × Member) : Bool :=
  a.1 == b.1 && a.2.user.id == b.2.user.id

/-- Key equality for messages: (channel, id). -/
def messageKeyEq (a b : Message) : Bool :=
  a.channelID == b.channelID && a.id == b.id

/-- Key equality for guild-scoped presence records. -/
def presenceKeyEq (a b : Snowflake × Presence) : Bool :=
  a.1 == b.1 && a.2.user.id == b.2.user.id

/-- Key equality for guild-scoped role records. -/
def roleKeyEq (a b : Snowflake × Role) : Bool :=
  a.1 == b.1 && a.2.id == b.2.id

/-- Modelled from the spec: the DefaultStore operations over StoreState. -/
def mapStore : Store StoreState where
  self s := match s.selfU with
    | some u => (some u, none)
    | none => (none, some Err.storeNotFound)
  channel id s := lookupRes s.channelList (fun c => c.id == id)
  channels guildID s := collectRes s.channelList (fun c => c.guildID == guildID)
  privateChannels s := collectRes s.channelList (fun c => c.guildID == 0)
  emoji guildID emojiID s :=
    match s.emojiList.find? (fun p => p.1 == guildID) with
    | some p => lookupRes p.2 (fun e => e.id == emojiID)
    | none => (none, some Err.storeNotFound)
  emojis guildID s :=
    match s.emojiList.find? (fun p => p.1 == guildID) with
    | some p => (p.2, none)
    | none => ([], some Err.storeNotFound)
  guild id s := lookupRes s.guildList (fun g => g.id == id)
  guilds s :=
    if s.guildList.isEmpty then ([], some Err.storeNotFound)
    else (s.guildList, none)
  member guildID userID s :=
    match s.memberList.find? (fun p => p.1 == guildID && p.2.user.id == userID) with
    | some p => (some p.2, none)
    | none => (none, some Err.storeNotFound)
  members guildID s :=
    let r := (s.memberList.filter (fun p => p.1 == guildID)).map (fun p => p.2)
    if r.isEmpty then ([], some Err.storeNotFound) else (r, none)
  message channelID messageID s :=
    lookupRes s.messageList (fun m => m.channelID == channelID && m.id == messageID)
  messages channelID s := collectRes s.messageList (fun m => m.channelID == channelID)
  maxMessages s := s.maxMsgs
  presence guildID userID s :=
    match s.presenceList.find? (fun p => p.1 == guildID && p.2.user.id == userID) with
    | some p => (some p.2, none)
    | none => (none, some Err.storeNotFound)
  presences guildID s :=
    let r := (s.presenceList.filter (fun p => p.1 == guildID)).map (fun p => p.2)
    if r.isEmpty then ([], some Err.storeNotFound) else (r, none)
  role guildID roleID s :=
    match s.roleList.find? (fun p => p.1 == guildID && p.2.id == roleID) with
    | some p => (some p.2, none)
    | none => (none, some Err.storeNotFound)
  roles guildID s :=
    let r := (s.roleList.filter (fun p => p.1 == guildID)).map (fun p => p.2)
    if r.isEmpty then ([], some Err.storeNotFound) else (r, none)
  selfSet u s := ({ s with selfU := some u }, none)
  channelSet c s :=
    ({ s with channelList := upsertBy (fun a b => a.id == b.id) c s.channelList }, none)
  emojiSet guildID es s :=
    ({ s with emojiList :=
        upsertBy (fun a b => a.1 == b.1) (guildID, es) s.emojiList }, none)
  guildSet g s :=
    ({ s with guildList := upsertBy (fun a b => a.id == b.id) g s.guildList }, none)
  memberSet guildID m s :=
    ({ s with memberList := upsertBy memberKeyEq (guildID, m) s.memberList }, none)
  messageSet m s :=
    ({ s with messageList := upsertBy messageKeyEq m s.messageList }, none)
  presenceSet guildID p s :=
    ({ s with presenceList := upsertBy presenceKeyEq (guildID, p) s.presenceList }, none)
  roleSet guildID r s :=
    ({ s with roleList := upsertBy roleKeyEq (guildID, r) s.roleList }, none)

/-- An empty map store with the given per-channel message cap. -/
def emptyStore (cap : Nat) : StoreState :=
  { selfU := none, channelList := [], guildList := [], memberList := [],
    messageList := [], presenceList := [], roleList := [], emojiList := [],
    maxMsgs := cap }

/-- A session whose every pull call fails; scenario sessions override fields. -/
def errSession : Session where
  me := .error (Err.apiFail 0)
  channel := fun _ => .error (Err.apiFail 0)
  channels := fun _ => .error (Err.apiFail 0)
  emojis := fun _ => .error (Err.apiFail 0)
  guild := fun _ => .error (Err.apiFail 0)
  guilds := fun _ => .error (Err.apiFail 0)
  member := fun _ _ => .error (Err.apiFail 0)
  members := fun _ _ => .error (Err.apiFail 0)
  message := fun _ _ => .error (Err.apiFail 0)
  messages := fun _ _ => .error (Err.apiFail 0)
  roles := fun _ => .error (Err.apiFail 0)
  requestGuildMembers := fun _ => none

/-! ## Pagination (src/api/guild.go) -/

/-- The query parameters Client.GuildsRange sends. -/
structure GuildsParam where
  before : Snowflake
  after : Snowflake
  limit : Nat
  deriving Repr, DecidableEq

/-- Modelled from the spec: the backing pull source behind GET guilds (the
wire transport is an external collaborator). It holds the guilds in ascending
identifier order; after is an exclusive lower bound, before an exclusive
upper bound (0 meaning unset), and at most limit guilds are returned. -/
def remoteGuilds (src : List Guild) (p : GuildsParam) : List Guild :=
  let base := src.dropWhile (fun g => g.id ≤ p.after)
  let base := if p.before = 0 then base else base.takeWhile (fun g => g.id < p.before)
  base.take p.limit

/-- Client.GuildsRange from src/api/guild.go: clamps the limit into [1, 100]
(0 means 100) and issues the request; returns the parameters actually sent
together with the page. -/
def guildsRange (src : List Guild) (before after : Snowflake) (limit : Nat) :
    GuildsParam × List Guild :=
  let limit := if limit = 0 then 100 else limit
  let limit := if limit > 100 then 100 else limit
  let p : GuildsParam := { before := before, after := after, limit := limit }
  (p, remoteGuilds src p)

/-- Client.GuildsAfter from src/api/guild.go. -/
def guildsAfter (src : List Guild) (after : Snowflake) (limit : Nat) :
    GuildsParam × List Guild :=
  guildsRange src 0 after limit

/-- One observed page of the Client.Guilds walk: the cursor and limit sent,
and the page returned. -/
structure Page where
  after : Snowflake
  limit : Nat
  returned : List Guild
  deriving Repr, DecidableEq

/-- A placeholder guild for indexing: the loop reads index 99 only when the
page holds 100 elements, so it is never observed (the Go indexing g[99]
cannot be out of bounds on that path). -/
def dummyGuild : Guild := { id := 0, name := "" }

/-- The pagination loop of Client.Guilds from src/api/guild.go: while max is
positive, request min(100, max) guilds after the cursor, deduct that from
max, stop on a page shorter than the hard limit of 100, otherwise advance the
cursor to the identifier of the page's element at index 99. Returns the
accumulated guilds and the trace of pages. -/
def guildsLoop (src : List Guild) (max : Nat) (after : Snowflake) :
    List Guild × List Page :=
  if hmax : max = 0 then ([], [])
  else
    let g := (guildsAfter src after (if 100 > max then max else 100)).2
    let lim := (guildsAfter src after (if 100 > max then max else 100)).1.limit
    if g.length < 100 then
      (g, [{ after := after, limit := lim, returned := g }])
    else
      let rest := guildsLoop src (max - (if 100 > max then max else 100))
        ((g.getD 99 dummyGuild).id)
      (g ++ rest.1, { after := after, limit := lim, returned := g } :: rest.2)
termination_by max
decreasing_by
  simp_wf
  split
  next h => omega
  next h => omega

/-- Client.Guilds from src/api/guild.go: the walk starts with an unset
cursor. -/
def clientGuilds (src : List Guild) (max : Nat) : List Guild × List Page :=
  guildsLoop src max 0

/-- The page-trace properties of the spec's pagination contract: every page
request is clamped into [1, 100], every page followed by another returned
exactly as many guilds as requested, and each subsequent page's cursor is the
identifier of the final guild of the prior page. -/
def pagesWellFormed : List Page → Bool
  | [] => true
  | [p] => decide (1 ≤ p.limit) && decide (p.limit ≤ 100)
  | p :: q :: rest =>
    decide (1 ≤ p.limit) && decide (p.limit ≤ 100) &&
    decide (p.returned.length = p.limit) &&
    decide ((p.returned.map (fun g => g.id)).getLast? = some q.after) &&
    pagesWellFormed (q :: rest)

/-! ## Concrete scenario fixtures -/

/-- A role with identifier 1, first in guild 5's role collection. -/
def roleA : Role := { id := 1, name := "A", color := 10 }

/-- A role with identifier 2, last in guild 5's role collection. -/
def roleB : Role := { id := 2, name := "B", color := 20 }

/-- A session whose only successful call returns guild 5's roles
[roleA, roleB]. -/
def sesRoles : Session :=
  { errSession with roles := fun g => if g = 5 then .ok [roleA, roleB] else .error (Err.apiFail 0) }

/-- A store whose every read fails and every write reports a failure; used to
instantiate the claims about arbitrary storage errors. -/
def failStore : Store Unit where
  self _ := (none, some (Err.storeFail 0))
  channel _ _ := (none, some (Err.storeFail 0))
  channels _ _ := ([], some (Err.storeFail 0))
  privateChannels _ := ([], some (Err.storeFail 0))
  emoji _ _ _ := (none, some (Err.storeFail 0))
  emojis _ _ := ([], some (Err.storeFail 0))
  guild _ _ := (none, some (Err.storeFail 0))
  guilds _ := ([], some (Err.storeFail 0))
  member _ _ _ := (none, some (Err.storeFail 0))
  members _ _ := ([], some (Err.storeFail 0))
  message _ _ _ := (none, some (Err.storeFail 0))
  messages _ _ := ([], some (Err.storeFail 0))
  maxMessages _ := 50
  presence _ _ _ := (none, some (Err.storeFail 0))
  presences _ _ := ([], some (Err.storeFail 0))
  role _ _ _ := (none, some (Err.storeFail 0))
  roles _ _ := ([], some (Err.storeFail 0))
  selfSet _ _ := ((), some (Err.storeFail 1))
  channelSet _ _ := ((), some (Err.storeFail 1))
  emojiSet _ _ _ := ((), some (Err.storeFail 1))
  guildSet _ _ := ((), some (Err.storeFail 1))
  memberSet _ _ _ := ((), some (Err.storeFail 1))
  messageSet _ _ := ((), some (Err.storeFail 1))
  presenceSet _ _ _ := ((), some (Err.storeFail 1))
  roleSet _ _ _ := ((), some (Err.storeFail 1))

/-- A Go pair whose error component is known non-nil is the pair of its own
value and that error. -/
theorem pairEtaSome {α : Type} (x : α × Option Err) (h : x.2 ≠ none) :
    ∃ v er, x = (v, some er) := by
  obtain ⟨er, her⟩ := Option.ne_none_iff_exists'.mp h
  exact ⟨x.1, er, by rw [← her]⟩

/-! ## Claims -/

/-- C1: the read-through fill contract claims that after a cold lookup fills
storage, an immediately following lookup for the same key performs zero
fetches and returns a value equal to the first result. State.Role violates
this: on a cold store, with guild 5's fetched roles [roleA (id 1), roleB
(id 2)], the first State.Role(5, 1) issues one fetch but returns roleB (the
range-variable aliasing of role = &r), while the immediately following
State.Role(5, 1) issues zero fetches and returns the stored roleA — the two
results differ, so the contract fails at this input. -/
theorem c1_role_refill_breaks_read_through :
    (stateRole mapStore sesRoles 5 1 (emptyStore 50)).2.2 = 1 ∧
    (stateRole mapStore sesRoles 5 1 (emptyStore 50)).1 = (some roleB, none) ∧
    (stateRole mapStore sesRoles 5 1
      ((stateRole mapStore sesRoles 5 1 (emptyStore 50)).2.1)).2.2 = 0 ∧
    (stateRole mapStore sesRoles 5 1
      ((stateRole mapStore sesRoles 5 1 (emptyStore 50)).2.1)).1 = (some roleA, none) ∧
    roleA ≠ roleB := by decide

/-- C4: the claim says State.Role returns a pointer to the matching role when
the fetched collection contains the queried identifier. The code aliases the
loop variable (role = &r), so when a match exists the pointer returned after
the loop observes the last role of the collection: with fetched roles
[roleA (id 1), roleB (id 2)] and query 1, the value returned is roleB, whose
identifier is not 1. The quirk half of the claim does hold at this input:
querying an identifier absent from the successfully fetched collection (99)
returns a nil match with a nil error. -/
theorem c4_role_scan_returns_last_not_match :
    sesRoles.roles 5 = .ok [roleA, roleB] ∧
    roleA.id = 1 ∧
    (stateRole mapStore sesRoles 5 1 (emptyStore 50)).1 = (some roleB, none) ∧
    roleB.id ≠ 1 ∧
    (stateRole mapStore sesRoles 5 99 (emptyStore 50)).1 = (none, none) :=
  ⟨rfl, by decide⟩

/-- C6: State.Presence and State.Presences are verbatim store reads: for
every store, session and key they return exactly the store's value-and-error
pair, leave the store untouched, and issue zero pull-API fetches. -/
theorem c6_presence_accessors_never_fetch {σ : Type} (st : Store σ)
    (ses : Session) (guildID userID : Snowflake) (s : σ) :
    statePresence st ses guildID userID s = (st.presence guildID userID s, s, 0) ∧
    statePresences st ses guildID s = (st.presences guildID s, s, 0) :=
  ⟨rfl, rfl⟩

/-- C8: for every limit argument, the limit Client.GuildsRange actually sends
lies in [1, 100]; in particular a limit above 100 is reduced to 100. -/
theorem c8_guilds_range_limit_clamped (src : List Guild)
    (before after : Snowflake) (limit : Nat) :
    1 ≤ (guildsRange src before after limit).1.limit ∧
    (guildsRange src before after limit).1.limit ≤ 100 := by
  simp only [guildsRange]
  split
  next h => simp
  next h => split <;> omega

/-- C5: for every accessor with a pull fallback, when the storage read fails
(triggering the fallback) and the pull-API fetch fails with e, the accessor
returns exactly that failure with a nil value (nil slice for collections),
leaves the store state untouched, and has issued exactly the one failing
fetch. -/
theorem c5_fetch_failure_atomicity {σ : Type} (st : Store σ) (ses : Session)
    (s : σ) (e : Err) (few : List Snowflake)
    (id gid uid chid mid eid rid : Snowflake)
    (hrSelf : (st.self s).2 ≠ none)
    (hrChannel : (st.channel id s).2 ≠ none)
    (hrChannels : (st.channels gid s).2 ≠ none)
    (hrGuild : (st.guild id s).2 ≠ none)
    (hrGuilds : (st.guilds s).2 ≠ none)
    (hrMember : (st.member gid uid s).2 ≠ none)
    (hrMembers : (st.members gid s).2 ≠ none)
    (hrMessage : (st.message chid mid s).2 ≠ none)
    (hrMessages : (st.messages chid s).2 ≠ none)
    (hrEmoji : (st.emoji gid eid s).2 ≠ none)
    (hrEmojis : (st.emojis gid s).2 ≠ none)
    (hrRole : (st.role gid rid s).2 ≠ none)
    (hrRoles : (st.roles gid s).2 ≠ none)
    (hfMe : ses.me = .error e)
    (hfChannel : ses.channel id = .error e)
    (hfChannels : ses.channels gid = .error e)
    (hfGuild : ses.guild id = .error e)
    (hfGuilds : ses.guilds maxFetchGuilds = .error e)
    (hfMember : ses.member gid uid = .error e)
    (hfMembers : ses.members gid maxFetchMembers = .error e)
    (hfMessage : ses.message chid mid = .error e)
    (hfMessages : ses.messages chid 100 = .error e)
    (hfEmojis : ses.emojis gid = .error e)
    (hfRoles : ses.roles gid = .error e) :
    stateSelf st ses s = ((none, some e), s, 1) ∧
    stateChannel st ses id s = ((none, some e), s, 1) ∧
    stateChannels st ses gid s = (([], some e), s, 1) ∧
    stateGuild st ses id s = ((none, some e), s, 1) ∧
    stateGuilds st ses s = (([], some e), s, 1) ∧
    stateMember st ses gid uid s = ((none, some e), s, 1) ∧
    stateMembers st ses gid s = (([], some e), s, 1) ∧
    stateMessage st ses chid mid s = ((none, some e), s, 1) ∧
    stateMessages st ses chid s few = (([], some e), s, few, 1) ∧
    stateEmoji st ses gid eid s = ((none, some e), s, 1) ∧
    stateEmojis st ses gid s = (([], some e), s, 1) ∧
    stateRole st ses gid rid s = ((none, some e), s, 1) ∧
    stateRoles st ses gid s = (([], some e), s, 1) := by
  obtain ⟨v1, e1, h1⟩ := pairEtaSome _ hrSelf
  obtain ⟨v2, e2, h2⟩ := pairEtaSome _ hrChannel
  obtain ⟨v3, e3, h3⟩ := pairEtaSome _ hrChannels
  obtain ⟨v4, e4, h4⟩ := pairEtaSome _ hrGuild
  obtain ⟨v5, e5, h5⟩ := pairEtaSome _ hrGuilds
  obtain ⟨v6, e6, h6⟩ := pairEtaSome _ hrMember
  obtain ⟨v7, e7, h7⟩ := pairEtaSome _ hrMembers
  obtain ⟨v8, e8, h8⟩ := pairEtaSome _ hrMessage
  obtain ⟨v9, e9, h9⟩ := pairEtaSome _ hrMessages
  obtain ⟨v10, e10, h10⟩ := pairEtaSome _ hrEmoji
  obtain ⟨v11, e11, h11⟩ := pairEtaSome _ hrEmojis
  obtain ⟨v12, e12, h12⟩ := pairEtaSome _ hrRole
  obtain ⟨v13, e13, h13⟩ := pairEtaSome _ hrRoles
  refine ⟨?_, ?_, ?_, ?_, ?_, ?_, ?_, ?_, ?_, ?_, ?_, ?_, ?_⟩
  · simp [stateSelf, h1, hfMe]
  · simp [stateChannel, h2, hfChannel]
  · simp [stateChannels, h3, hfChannels]
  · simp [stateGuild, h4, hfGuild]
  · simp [stateGuilds, h5, hfGuilds]
  · simp [stateMember, h6, hfMember]
  · simp [stateMembers, h7, hfMembers]
  · simp [stateMessage, h8, hfMessage]
  · simp [stateMessages, stateMessagesFetch, h9, hfMessages]
  · simp [stateEmoji, h10, hfEmojis]
  · simp [stateEmojis, h11, hfEmojis]
  · simp [stateRole, h12, hfRoles]
  · simp [stateRoles, h13, hfRoles]

/-- C5 witness: the fetch-failure conclusions hold at the all-failing store
and the all-failing session. -/
theorem c5_fetch_failure_atomicity_witness :
    stateSelf failStore errSession () = ((none, some (Err.apiFail 0)), (), 1) ∧
    stateChannel failStore errSession 0 () = ((none, some (Err.apiFail 0)), (), 1) ∧
    stateChannels failStore errSession 0 () = (([], some (Err.apiFail 0)), (), 1) ∧
    stateGuild failStore errSession 0 () = ((none, some (Err.apiFail 0)), (), 1) ∧
    stateGuilds failStore errSession () = (([], some (Err.apiFail 0)), (), 1) ∧
    stateMember failStore errSession 0 0 () = ((none, some (Err.apiFail 0)), (), 1) ∧
    stateMembers failStore errSession 0 () = (([], some (Err.apiFail 0)), (), 1) ∧
    stateMessage failStore errSession 0 0 () = ((none, some (Err.apiFail 0)), (), 1) ∧
    stateMessages failStore errSession 0 () [] = (([], some (Err.apiFail 0)), (), [], 1) ∧
    stateEmoji failStore errSession 0 0 () = ((none, some (Err.apiFail 0)), (), 1) ∧
    stateEmojis failStore errSession 0 () = (([], some (Err.apiFail 0)), (), 1) ∧
    stateRole failStore errSession 0 0 () = ((none, some (Err.apiFail 0)), (), 1) ∧
    stateRoles failStore errSession 0 () = (([], some (Err.apiFail 0)), (), 1) :=
  c5_fetch_failure_atomicity failStore errSession () (Err.apiFail 0) []
    0 0 0 0 0 0 0
    (by decide) (by decide) (by decide) (by decide) (by decide) (by decide)
    (by decide) (by decide) (by decide) (by decide) (by decide) (by decide)
    (by decide)
    rfl rfl rfl rfl rfl rfl rfl rfl rfl rfl rfl

/-- A fixed user for the write-back scenarios. -/
def userW : User := { id := 9, username := "w" }

/-- A fixed channel (id 4, guild 6) for the write-back scenarios. -/
def chanW : Channel := { id := 4, guildID := 6 }

/-- A fixed guild for the write-back scenarios. -/
def guildW : Guild := { id := 6, name := "g" }

/-- A fixed member for the write-back scenarios. -/
def memberW : Member := { user := userW, nick := "n" }

/-- A fixed message in channel 4 with an unset guild identifier. -/
def msgW : Message := { id := 11, channelID := 4, guildID := 0, author := userW }

/-- A fixed emoji for the write-back scenarios. -/
def emojiW : Emoji := { id := 12, name := "e" }

/-- A session whose every pull call succeeds with the fixed entities. -/
def okSession : Session where
  me := .ok userW
  channel := fun _ => .ok chanW
  channels := fun _ => .ok [chanW]
  emojis := fun _ => .ok [emojiW]
  guild := fun _ => .ok guildW
  guilds := fun _ => .ok [guildW]
  member := fun _ _ => .ok memberW
  members := fun _ _ => .ok [memberW]
  message := fun _ _ => .ok msgW
  messages := fun _ _ => .ok [msgW]
  roles := fun _ => .ok []
  requestGuildMembers := fun _ => none

/-- C9: when the pull fetch succeeds but the storage write-back fails, the
singular accessors Self, Channel, Guild, Member, Message and the Emojis
collection return the freshly fetched non-nil value together with the
non-nil write-back error; for Message the value is the fetched message after
the guild-stamping step. -/
theorem c9_writeback_failure_keeps_value {σ : Type} (st : Store σ)
    (ses : Session) (s : σ) (id gid uid chid mid : Snowflake)
    (u : User) (c : Channel) (g : Guild) (m : Member) (msg : Message)
    (es : List Emoji) (e1 e2 e3 e4 e6 : Err) (s1 s2 s3 s4 s6 : σ)
    (hrSelf : (st.self s).2 ≠ none)
    (hfMe : ses.me = .ok u)
    (hwSelf : st.selfSet u s = (s1, some e1))
    (hrChannel : (st.channel id s).2 ≠ none)
    (hfChannel : ses.channel id = .ok c)
    (hwChannel : st.channelSet c s = (s2, some e2))
    (hrGuild : (st.guild id s).2 ≠ none)
    (hfGuild : ses.guild id = .ok g)
    (hwGuild : st.guildSet g s = (s3, some e3))
    (hrMember : (st.member gid uid s).2 ≠ none)
    (hfMember : ses.member gid uid = .ok m)
    (hwMember : st.memberSet gid m s = (s4, some e4))
    (hrEmojis : (st.emojis gid s).2 ≠ none)
    (hfEmojis : ses.emojis gid = .ok es)
    (hwEmojis : st.emojiSet gid es s = (s6, some e6)) :
    stateSelf st ses s = ((some u, some e1), s1, 1) ∧
    stateChannel st ses id s = ((some c, some e2), s2, 1) ∧
    stateGuild st ses id s = ((some g, some e3), s3, 1) ∧
    stateMember st ses gid uid s = ((some m, some e4), s4, 1) ∧
    stateEmojis st ses gid s = ((es, some e6), s6, 1) ∧
    (∀ cres sc n m2 s5 e5,
      (st.message chid mid s).2 ≠ none →
      ses.message chid mid = .ok msg →
      stateChannel st ses chid s = (cres, sc, n) →
      m2 = (match cres with
            | (some ch, none) => { msg with guildID := ch.guildID }
            | _ => msg) →
      st.messageSet m2 sc = (s5, some e5) →
      stateMessage st ses chid mid s = ((some m2, some e5), s5, 1 + n)) := by
  obtain ⟨v1, er1, h1⟩ := pairEtaSome _ hrSelf
  obtain ⟨v2, er2, h2⟩ := pairEtaSome _ hrChannel
  obtain ⟨v3, er3, h3⟩ := pairEtaSome _ hrGuild
  obtain ⟨v4, er4, h4⟩ := pairEtaSome _ hrMember
  obtain ⟨v5, er5, h5⟩ := pairEtaSome _ hrEmojis
  refine ⟨?_, ?_, ?_, ?_, ?_, ?_⟩
  · simp [stateSelf, h1, hfMe, hwSelf]
  · simp [stateChannel, h2, hfChannel, hwChannel]
  · simp [stateGuild, h3, hfGuild, hwGuild]
  · simp [stateMember, h4, hfMember, hwMember]
  · simp [stateEmojis, h5, hfEmojis, hwEmojis]
  · intro cres sc n m2 s5 e5 hr hf hch hm2 hw
    obtain ⟨v6, er6, h6⟩ := pairEtaSome _ hr
    rcases cres with ⟨cv, cerr⟩
    rcases cerr with _ | ce
    · rcases cv with _ | ch
      · subst hm2
        simp [stateMessage, h6, hf, hch, hw]
      · subst hm2
        simp [stateMessage, h6, hf, hch, hw]
    · rcases cv with _ | ch
      · subst hm2
        simp [stateMessage, h6, hf, hch, hw]
      · subst hm2
        simp [stateMessage, h6, hf, hch, hw]

/-- C9 witness: the write-back failure conclusions at the all-failing store
and the all-succeeding session. -/
theorem c9_writeback_failure_keeps_value_witness :
    stateSelf failStore okSession () = ((some userW, some (Err.storeFail 1)), (), 1) ∧
    stateChannel failStore okSession 4 () = ((some chanW, some (Err.storeFail 1)), (), 1) ∧
    stateGuild failStore okSession 4 () = ((some guildW, some (Err.storeFail 1)), (), 1) ∧
    stateMember failStore okSession 6 9 () = ((some memberW, some (Err.storeFail 1)), (), 1) ∧
    stateEmojis failStore okSession 6 () = (([emojiW], some (Err.storeFail 1)), (), 1) ∧
    stateMessage failStore okSession 4 11 () = ((some msgW, some (Err.storeFail 1)), (), 2) := by
  have h := c9_writeback_failure_keeps_value failStore okSession () 4 6 9 4 11
    userW chanW guildW memberW msgW [emojiW]
    (Err.storeFail 1) (Err.storeFail 1) (Err.storeFail 1) (Err.storeFail 1)
    (Err.storeFail 1) () () () () ()
    (by decide) rfl rfl (by decide) rfl rfl (by decide) rfl rfl
    (by decide) rfl rfl (by decide) rfl rfl
  refine ⟨h.1, h.2.1, h.2.2.1, h.2.2.2.1, h.2.2.2.2.1, ?_⟩
  exact h.2.2.2.2.2 (some chanW, some (Err.storeFail 1)) () 1 msgW () (Err.storeFail 1)
    (by decide) rfl rfl rfl rfl

/-- The author of the display-name scenario message. -/
def userAlice : User := { id := 7, username := "alice" }

/-- A member record for user 7 whose stored username differs from the
author's and whose nickname is empty. -/
def memberBob : Member := { user := { id := 7, username := "bob" }, nick := "" }

/-- A message by alice in guild 1. -/
def msgAlice : Message := { id := 20, channelID := 2, guildID := 1, author := userAlice }

/-- A store holding the member record for (guild 1, user 7). -/
def storeBob : StoreState := { emptyStore 50 with memberList := [(1, memberBob)] }

/-- C7 counterexample: the claim says the display-name helpers return the
author's username whenever the member has no nickname. Here the member
lookup succeeds, the member has no nickname, and AuthorDisplayName returns
the member's stored username "bob", not the author's username "alice". -/
theorem c7_author_username_counterexample :
    (stateMember mapStore errSession 1 7 storeBob).1 = (some memberBob, none) ∧
    memberBob.nick = "" ∧
    msgAlice.guildID = 1 ∧
    (authorDisplayName mapStore errSession msgAlice storeBob).1 ≠
      msgAlice.author.username := by decide

/-- C7 amended: the best-effort cosmetic helpers AuthorDisplayName,
MemberColor and AuthorColor never return an error (their types carry none);
AuthorDisplayName returns the author's username when the message has no
valid guild or the member lookup fails, the member's stored username when
the lookup succeeds with an empty nickname, and the nickname otherwise;
MemberColor and AuthorColor return the default member color whenever the
member or the guild lookup fails; MemberDisplayName, by contrast, propagates
the member-lookup error. -/
theorem c7_best_effort_defaults {σ : Type} (st : Store σ) (ses : Session)
    (cc : Guild → Member → Nat) (msg : Message) (s : σ)
    (guildID userID : Snowflake) :
    (msg.guildID = 0 → (authorDisplayName st ses msg s).1 = msg.author.username) ∧
    ((stateMember st ses msg.guildID msg.author.id s).1.2 ≠ none →
      (authorDisplayName st ses msg s).1 = msg.author.username) ∧
    (∀ m s2 n, stateMember st ses msg.guildID msg.author.id s = ((some m, none), s2, n) →
      m.nick = "" → msg.guildID ≠ 0 →
      (authorDisplayName st ses msg s).1 = m.user.username) ∧
    (∀ m s2 n, stateMember st ses msg.guildID msg.author.id s = ((some m, none), s2, n) →
      m.nick ≠ "" → msg.guildID ≠ 0 →
      (authorDisplayName st ses msg s).1 = m.nick) ∧
    ((stateMember st ses guildID userID s).1.2 ≠ none →
      (memberColor cc st ses guildID userID s).1 = defaultMemberColor) ∧
    (∀ m s2 n, stateMember st ses guildID userID s = ((some m, none), s2, n) →
      (stateGuild st ses guildID s2).1.2 ≠ none →
      (memberColor cc st ses guildID userID s).1 = defaultMemberColor) ∧
    (msg.guildID = 0 → (authorColor cc st ses msg s).1 = defaultMemberColor) ∧
    (∀ v e s2 n, stateMember st ses guildID userID s = ((v, some e), s2, n) →
      memberDisplayName st ses guildID userID s = (("", some e), s2, n)) := by
  refine ⟨?_, ?_, ?_, ?_, ?_, ?_, ?_, ?_⟩
  · intro hg
    simp [authorDisplayName, hg]
  · intro hne
    by_cases hg : msg.guildID = 0
    · simp [authorDisplayName, hg]
    · rcases hm : stateMember st ses msg.guildID msg.author.id s with ⟨⟨v, er⟩, s2, n⟩
      rw [hm] at hne
      rcases er with _ | e
      · simp at hne
      · simp [authorDisplayName, memberDisplayName, hg, hm]
  · intro m s2 n hm hnick hg
    simp [authorDisplayName, memberDisplayName, hg, hm, hnick]
  · intro m s2 n hm hnick hg
    simp [authorDisplayName, memberDisplayName, hg, hm, hnick]
  · intro hne
    rcases hm : stateMember st ses guildID userID s with ⟨⟨v, er⟩, s2, n⟩
    rw [hm] at hne
    rcases er with _ | e
    · rcases v with _ | m
      · simp [memberColor, hm]
      · simp at hne
    · simp [memberColor, hm]
  · intro m s2 n hm hne
    rcases hgd : stateGuild st ses guildID s2 with ⟨⟨gv, ger⟩, s3, k⟩
    rw [hgd] at hne
    rcases ger with _ | e
    · rcases gv with _ | g
      · simp [memberColor, hm, hgd]
      · simp at hne
    · simp [memberColor, hm, hgd]
  · intro hg
    simp [authorColor, hg]
  · intro v e s2 n hm
    simp [memberDisplayName, hm]

/-- C7 witness: the amended conclusions at concrete inputs — the stored
member with an empty nickname yields the member's username, a failing member
lookup yields the author's username, and a failing member lookup yields the
default member color. -/
theorem c7_best_effort_defaults_witness :
    (authorDisplayName mapStore errSession msgAlice storeBob).1 =
      memberBob.user.username ∧
    (authorDisplayName failStore errSession msgAlice ()).1 =
      msgAlice.author.username ∧
    (memberColor (fun _ _ => 7) failStore errSession 1 7 ()).1 =
      defaultMemberColor ∧
    memberDisplayName failStore errSession 1 7 () =
      (("", some (Err.apiFail 0)), (), 1) := by
  have h1 := c7_best_effort_defaults mapStore errSession (fun _ _ => 7) msgAlice storeBob 1 7
  have h2 := c7_best_effort_defaults failStore errSession (fun _ _ => 7) msgAlice () 1 7
  refine ⟨?_, ?_, ?_, ?_⟩
  · exact h1.2.2.1 memberBob storeBob 0 (by decide) (by decide) (by decide)
  · exact h2.2.1 (by decide)
  · exact h2.2.2.2.2.1 (by decide)
  · exact h2.2.2.2.2.2.2.2 none (Err.apiFail 0) () 1 (by decide)

/-- C10: the guild-identifier stamping step in State.Message and
State.Messages swallows Channel-lookup failures: when the channel lookup
used to resolve the owning guild returns an error, the fetched message is
returned and written back unchanged (its guild identifier stays at the zero
value the fetch source left), the fetched messages are stamped with the zero
guild identifier, and no error from the channel sub-lookup reaches the
caller — the accessors succeed whenever the write-backs succeed. -/
theorem c10_guild_stamp_swallows_channel_error {σ : Type} (st : Store σ)
    (ses : Session) (s : σ) (chid mid : Snowflake) (m : Message)
    (ms : List Message) (few : List Snowflake)
    (cv : Option Channel) (ce : Err) (s2 : σ) (n : Nat) :
    ((st.message chid mid s).2 ≠ none →
      ses.message chid mid = .ok m →
      m.guildID = 0 →
      stateChannel st ses chid s = ((cv, some ce), s2, n) →
      ∀ s3, st.messageSet m s2 = (s3, none) →
      stateMessage st ses chid mid s = ((some m, none), s3, 1 + n)) ∧
    ((st.messages chid s).2 ≠ none →
      ses.messages chid 100 = .ok ms →
      stateChannel st ses chid s = ((cv, some ce), s2, n) →
      ∀ s3,
        setEach st.messageSet (ms.map (fun x => { x with guildID := 0 })) s2 = (s3, none) →
      (ms.length < st.maxMessages s →
        stateMessages st ses chid s few =
          ((ms.map (fun x => { x with guildID := 0 }), none), s3, few ++ [chid], 1 + n)) ∧
      (st.maxMessages s ≤ ms.length →
        stateMessages st ses chid s few =
          (((ms.map (fun x => { x with guildID := 0 })).take (st.maxMessages s), none),
            s3, few, 1 + n))) := by
  constructor
  · intro hr hf hm0 hch s3 hw
    obtain ⟨v0, er0, h0⟩ := pairEtaSome _ hr
    rcases cv with _ | ch
    · simp [stateMessage, h0, hf, hch, hw]
    · simp [stateMessage, h0, hf, hch, hw]
  · intro hr hf hch s3 hw
    obtain ⟨v0, er0, h0⟩ := pairEtaSome _ hr
    constructor
    · intro hlen
      rcases cv with _ | ch <;>
        simp [stateMessages, stateMessagesFetch, h0, hf, hch, hw, hlen]
    · intro hlen
      rcases cv with _ | ch <;>
        simp [stateMessages, stateMessagesFetch, h0, hf, hch, hw, Nat.not_lt.mpr hlen]

/-- The all-failing store, except that message write-backs succeed. -/
def c10Store : Store Unit := { failStore with messageSet := fun _ s => (s, none) }

/-- The all-succeeding session, except that channel fetches fail (so the
guild-stamping channel lookup fails). -/
def c10Session : Session := { okSession with channel := fun _ => .error (Err.apiFail 2) }

/-- C10 witness: with a cold store, succeeding message fetches and writes,
and a failing channel lookup, State.Message returns the fetched message
unchanged with no error and State.Messages returns the zero-stamped fetched
messages, flags the channel, and returns no error. -/
theorem c10_guild_stamp_swallows_channel_error_witness :
    stateMessage c10Store c10Session 4 11 () = ((some msgW, none), (), 1 + 1) ∧
    stateMessages c10Store c10Session 4 () [] =
      (([msgW].map (fun x => { x with guildID := 0 }), none), (), [] ++ [4], 1 + 1) := by
  have h := c10_guild_stamp_swallows_channel_error c10Store c10Session () 4 11 msgW
    [msgW] [] none (Err.apiFail 2) () 1
  exact ⟨h.1 (by decide) rfl (by decide) rfl () rfl,
    (h.2 (by decide) rfl rfl () rfl).1 (by decide)⟩

/-- The channel of the Messages-memo scenario: id 7 in guild 3. -/
def chan7 : Channel := { id := 7, guildID := 3 }

/-- The true history of channel 7: ten messages. -/
def histTen : List Message :=
  (List.range 10).map (fun i => { id := i + 1, channelID := 7, guildID := 0, author := userW })

/-- The Messages-memo scenario store: cap 50, channel 7 cached, no stored
messages. -/
def storeC3 : StoreState := { emptyStore 50 with channelList := [chan7] }

/-- A session whose only successful call returns channel 7's ten messages. -/
def sesC3 : Session :=
  { errSession with
    messages := fun ch n => if ch = 7 ∧ n = 100 then .ok histTen else .error (Err.apiFail 1) }

/-- Writing messages through the map store never fails. -/
theorem setEach_mapStore_messageSet (l : List Message) (s : StoreState) :
    ∃ s2, setEach mapStore.messageSet l s = (s2, none) := by
  induction l generalizing s with
  | nil => exact ⟨s, rfl⟩
  | cons a t ih =>
    obtain ⟨s2, h⟩ := ih { s with messageList := upsertBy messageKeyEq a s.messageList }
    exact ⟨s2, h⟩

/-- C3: with cap 50 and a true channel history of ten messages, the first
Messages(7) call issues exactly one fetch, returns the ten (guild-stamped)
messages with no error, stores them, and flags channel 7 in the memo; the
immediately following call issues zero fetches and returns the same ten
messages. In general, over the map store: whenever the fetch path obtains
fewer messages than the cap, the channel is appended to the memo and exactly
the fetched (stamped) messages are returned; whenever it obtains at least
cap messages, only the first cap entries are returned and the memo is
unchanged. -/
theorem c3_messages_small_collection_memo :
    ((stateMessages mapStore sesC3 7 storeC3 []).2.2.2 = 1 ∧
     (stateMessages mapStore sesC3 7 storeC3 []).1.2 = none ∧
     (stateMessages mapStore sesC3 7 storeC3 []).1.1.length = 10 ∧
     (stateMessages mapStore sesC3 7 storeC3 []).2.2.1 = [7] ∧
     mapStore.messages 7 (stateMessages mapStore sesC3 7 storeC3 []).2.1 =
       ((stateMessages mapStore sesC3 7 storeC3 []).1.1, none) ∧
     (stateMessages mapStore sesC3 7
        ((stateMessages mapStore sesC3 7 storeC3 []).2.1)
        ((stateMessages mapStore sesC3 7 storeC3 []).2.2.1)).2.2.2 = 0 ∧
     (stateMessages mapStore sesC3 7
        ((stateMessages mapStore sesC3 7 storeC3 []).2.1)
        ((stateMessages mapStore sesC3 7 storeC3 []).2.2.1)).1 =
       (stateMessages mapStore sesC3 7 storeC3 []).1) ∧
    (∀ (ses : Session) (cid : Snowflake) (ms : List Message) (s : StoreState)
       (few : List Snowflake) (maxMsgs : Nat),
       ses.messages cid 100 = .ok ms → ms.length < maxMsgs →
       ∃ γ s3 n,
         stateMessagesFetch mapStore ses cid s few maxMsgs =
           ((ms.map (fun m => { m with guildID := γ }), none), s3, few ++ [cid], n)) ∧
    (∀ (ses : Session) (cid : Snowflake) (ms : List Message) (s : StoreState)
       (few : List Snowflake) (maxMsgs : Nat),
       ses.messages cid 100 = .ok ms → maxMsgs ≤ ms.length →
       ∃ γ s3 n,
         stateMessagesFetch mapStore ses cid s few maxMsgs =
           (((ms.map (fun m => { m with guildID := γ })).take maxMsgs, none),
             s3, few, n)) := by
  refine ⟨by decide, ?_, ?_⟩
  · intro ses cid ms s few maxMsgs hf hlen
    rcases hch : stateChannel mapStore ses cid s with ⟨⟨cv, cerr⟩, s2, n⟩
    rcases cerr with _ | ce
    · rcases cv with _ | ch
      · obtain ⟨s3, hw⟩ :=
          setEach_mapStore_messageSet (ms.map (fun m => { m with guildID := 0 })) s2
        exact ⟨0, s3, 1 + n, by simp [stateMessagesFetch, hf, hch, hw, hlen]⟩
      · obtain ⟨s3, hw⟩ :=
          setEach_mapStore_messageSet (ms.map (fun m => { m with guildID := ch.guildID })) s2
        exact ⟨ch.guildID, s3, 1 + n, by simp [stateMessagesFetch, hf, hch, hw, hlen]⟩
    · rcases cv with _ | ch
      · obtain ⟨s3, hw⟩ :=
          setEach_mapStore_messageSet (ms.map (fun m => { m with guildID := 0 })) s2
        exact ⟨0, s3, 1 + n, by simp [stateMessagesFetch, hf, hch, hw, hlen]⟩
      · obtain ⟨s3, hw⟩ :=
          setEach_mapStore_messageSet (ms.map (fun m => { m with guildID := 0 })) s2
        exact ⟨0, s3, 1 + n, by simp [stateMessagesFetch, hf, hch, hw, hlen]⟩
  · intro ses cid ms s few maxMsgs hf hlen
    rcases hch : stateChannel mapStore ses cid s with ⟨⟨cv, cerr⟩, s2, n⟩
    rcases cerr with _ | ce
    · rcases cv with _ | ch
      · obtain ⟨s3, hw⟩ :=
          setEach_mapStore_messageSet (ms.map (fun m => { m with guildID := 0 })) s2
        exact ⟨0, s3, 1 + n,
          by simp [stateMessagesFetch, hf, hch, hw, Nat.not_lt.mpr hlen]⟩
      · obtain ⟨s3, hw⟩ :=
          setEach_mapStore_messageSet (ms.map (fun m => { m with guildID := ch.guildID })) s2
        exact ⟨ch.guildID, s3, 1 + n,
          by simp [stateMessagesFetch, hf, hch, hw, Nat.not_lt.mpr hlen]⟩
    · rcases cv with _ | ch
      · obtain ⟨s3, hw⟩ :=
          setEach_mapStore_messageSet (ms.map (fun m => { m with guildID := 0 })) s2
        exact ⟨0, s3, 1 + n,
          by simp [stateMessagesFetch, hf, hch, hw, Nat.not_lt.mpr hlen]⟩
      · obtain ⟨s3, hw⟩ :=
          setEach_mapStore_messageSet (ms.map (fun m => { m with guildID := 0 })) s2
        exact ⟨0, s3, 1 + n,
          by simp [stateMessagesFetch, hf, hch, hw, Nat.not_lt.mpr hlen]⟩

/-- C3 witness: the general memo rules applied at the concrete scenario. -/
theorem c3_messages_small_collection_memo_witness :
    (∃ γ s3 n,
      stateMessagesFetch mapStore sesC3 7 storeC3 [] 50 =
        ((histTen.map (fun m => { m with guildID := γ }), none), s3, [] ++ [7], n)) ∧
    (∃ γ s3 n,
      stateMessagesFetch mapStore sesC3 7 storeC3 [] 3 =
        (((histTen.map (fun m => { m with guildID := γ })).take 3, none), s3, [], n)) :=
  ⟨c3_messages_small_collection_memo.2.1 sesC3 7 histTen storeC3 [] 50
      rfl (by decide),
   c3_messages_small_collection_memo.2.2 sesC3 7 histTen storeC3 [] 3
      rfl (by decide)⟩

/-! ## Pagination lemmas (C2) -/

/-- The guilds of a backing source are in strictly ascending identifier
order. -/
def ascIDs (l : List Guild) : Prop := l.Pairwise (fun a b => a.id < b.id)

/-- dropWhile leaves a list unchanged when the predicate fails everywhere. -/
theorem dropWhile_eq_self_of_all_false {α : Type} (p : α → Bool) (l : List α)
    (h : ∀ x ∈ l, p x = false) : l.dropWhile p = l := by
  cases l with
  | nil => rfl
  | cons a t => simp [List.dropWhile_cons, h a (by simp)]

/-- dropWhile skips a prefix on which the predicate holds everywhere. -/
theorem dropWhile_append_all_true {α : Type} (p : α → Bool) (l1 l2 : List α)
    (h : ∀ x ∈ l1, p x = true) : (l1 ++ l2).dropWhile p = l2.dropWhile p := by
  induction l1 with
  | nil => rfl
  | cons a t ih =>
    have ha : p a = true := h a (List.mem_cons_self a t)
    simp only [List.cons_append, List.dropWhile_cons, ha, if_true]
    exact ih (fun x hx => h x (List.mem_cons_of_mem a hx))

/-- On a strictly ascending list, dropping everything at or below the k-th
identifier drops exactly the first k+1 elements. -/
theorem dropWhile_le_get_asc (l : List Guild) (hasc : ascIDs l) :
    ∀ (k : Nat) (hk : k < l.length),
      l.dropWhile (fun g => decide (g.id ≤ (l.get ⟨k, hk⟩).id)) = l.drop (k + 1) := by
  induction l with
  | nil => intro k hk; cases hk
  | cons a t ih =>
    rcases List.pairwise_cons.mp hasc with ⟨hhead, htail⟩
    intro k hk
    cases k with
    | zero =>
      show (a :: t).dropWhile (fun g => decide (g.id ≤ a.id)) = (a :: t).drop 1
      rw [List.dropWhile_cons, if_pos (by simp)]
      rw [List.drop_succ_cons, List.drop_zero]
      exact dropWhile_eq_self_of_all_false _ t (fun x hx =>
        decide_eq_false (Nat.not_le.mpr (hhead x hx)))
    | succ k =>
      have hk2 := hk
      simp only [List.length_cons] at hk2
      have hk' : k < t.length := by omega
      have ha : a.id < (t.get ⟨k, hk'⟩).id := hhead _ (t.get_mem k hk')
      show (a :: t).dropWhile (fun g => decide (g.id ≤ (t.get ⟨k, hk'⟩).id)) =
        (a :: t).drop (k + 2)
      rw [List.dropWhile_cons, if_pos (decide_eq_true (Nat.le_of_lt ha))]
      rw [List.drop_succ_cons]
      exact ih htail k hk'

/-- Advancing the cursor to the k-th remaining identifier leaves exactly the
elements after it: the source-level dropWhile at the new cursor equals the
(k+1)-element drop of the previous remainder. -/
theorem dropWhile_chain (src : List Guild) (hasc : ascIDs src) (after : Snowflake)
    (k : Nat)
    (hk : k < (src.dropWhile (fun g => decide (g.id ≤ after))).length) :
    src.dropWhile (fun g => decide (g.id ≤
        ((src.dropWhile (fun g => decide (g.id ≤ after))).get ⟨k, hk⟩).id)) =
      (src.dropWhile (fun g => decide (g.id ≤ after))).drop (k + 1) := by
  have hsplit : src.takeWhile (fun g => decide (g.id ≤ after)) ++
      src.dropWhile (fun g => decide (g.id ≤ after)) = src :=
    List.takeWhile_append_dropWhile _ _
  have hascrem : ascIDs (src.dropWhile (fun g => decide (g.id ≤ after))) :=
    List.Pairwise.sublist (List.dropWhile_sublist _) hasc
  have hp : ((src.takeWhile (fun g => decide (g.id ≤ after))) ++
      (src.dropWhile (fun g => decide (g.id ≤ after)))).Pairwise
        (fun a b => a.id < b.id) := by
    rw [hsplit]
    exact hasc
  have hall : ∀ y ∈ src.takeWhile (fun g => decide (g.id ≤ after)),
      decide (y.id ≤ ((src.dropWhile (fun g => decide (g.id ≤ after))).get ⟨k, hk⟩).id)
        = true := by
    intro y hy
    have h2 := (List.pairwise_append.mp hp).2.2 y hy _
      ((src.dropWhile (fun g => decide (g.id ≤ after))).get_mem k hk)
    exact decide_eq_true (Nat.le_of_lt h2)
  calc src.dropWhile (fun g => decide (g.id ≤
          ((src.dropWhile (fun g => decide (g.id ≤ after))).get ⟨k, hk⟩).id))
      = ((src.takeWhile (fun g => decide (g.id ≤ after))) ++
          (src.dropWhile (fun g => decide (g.id ≤ after)))).dropWhile
            (fun g => decide (g.id ≤
              ((src.dropWhile (fun g => decide (g.id ≤ after))).get ⟨k, hk⟩).id)) := by
        rw [hsplit]
    _ = (src.dropWhile (fun g => decide (g.id ≤ after))).dropWhile
          (fun g => decide (g.id ≤
            ((src.dropWhile (fun g => decide (g.id ≤ after))).get ⟨k, hk⟩).id)) :=
        dropWhile_append_all_true _ _ _ hall
    _ = (src.dropWhile (fun g => decide (g.id ≤ after))).drop (k + 1) :=
        dropWhile_le_get_asc _ hascrem k hk

/-- Client.GuildsAfter with a nonzero limit at most 100 sends exactly that
limit and receives the corresponding page of the remainder. -/
theorem guildsAfter_clamped (src : List Guild) (after : Snowflake) (fetch : Nat)
    (h1 : fetch ≠ 0) (h2 : fetch ≤ 100) :
    guildsAfter src after fetch =
      ({ before := 0, after := after, limit := fetch },
       (src.dropWhile (fun g => decide (g.id ≤ after))).take fetch) := by
  unfold guildsAfter guildsRange remoteGuilds
  simp [if_neg h1, if_neg (by omega : ¬ fetch > 100)]

/-- The guilds accumulated by the pagination loop are exactly the first max
elements of the source past the cursor. -/
theorem guildsLoop_take (src : List Guild) (hasc : ascIDs src) :
    ∀ (max : Nat) (after : Snowflake),
      (guildsLoop src max after).1 =
        (src.dropWhile (fun g => decide (g.id ≤ after))).take max := by
  intro max
  induction max using Nat.strong_induction_on with
  | _ max ih =>
    intro after
    rw [guildsLoop]
    by_cases hmax : max = 0
    · simp [hmax]
    · rw [dif_neg hmax]
      generalize hfe : (if 100 > max then max else 100) = fetch
      have hf1 : fetch ≠ 0 := by rw [← hfe]; split <;> omega
      have hf2 : fetch ≤ 100 := by rw [← hfe]; split <;> omega
      rw [guildsAfter_clamped src after fetch hf1 hf2]
      dsimp only
      split
      next hlen =>
        by_cases h100 : 100 > max
        · rw [if_pos h100] at hfe
          rw [hfe]
        · rw [if_neg h100] at hfe
          subst hfe
          rw [List.length_take] at hlen
          rw [List.take_of_length_le (by omega), List.take_of_length_le (by omega)]
      next hlen =>
        have hf100 : fetch = 100 := by
          by_cases h100 : 100 > max
          · rw [if_pos h100] at hfe
            subst hfe
            rw [List.length_take] at hlen
            omega
          · rw [if_neg h100] at hfe
            omega
        subst hf100
        have hm100 : 100 ≤ max := by
          by_cases h100 : 100 > max
          · rw [if_pos h100] at hfe
            omega
          · omega
        have htl : ((src.dropWhile (fun g => decide (g.id ≤ after))).take 100).length =
            min 100 (src.dropWhile (fun g => decide (g.id ≤ after))).length :=
          List.length_take 100 _
        have hremlen : 100 ≤ (src.dropWhile (fun g => decide (g.id ≤ after))).length := by
          omega
        have h99r : 99 < (src.dropWhile (fun g => decide (g.id ≤ after))).length := by
          omega
        have hgd : ((src.dropWhile (fun g => decide (g.id ≤ after))).take 100).getD
            99 dummyGuild =
            (src.dropWhile (fun g => decide (g.id ≤ after))).get ⟨99, h99r⟩ := by
          rw [List.getD_eq_getElem?_getD, List.getElem?_take,
            if_pos (by omega : (99 : Nat) < 100), List.getElem?_eq_getElem h99r]
          rfl
        rw [hgd]
        rw [ih (max - 100) (by omega) _]
        rw [dropWhile_chain src hasc after 99 h99r]
        rw [← List.take_add]
        have : 100 + (max - 100) = max := by omega
        rw [this]

/-- Every non-empty page trace starts with the call's own cursor. -/
theorem guildsLoop_pages_head (src : List Guild) (max : Nat) (after : Snowflake) :
    (guildsLoop src max after).2 = [] ∨
    ∃ p t, (guildsLoop src max after).2 = p :: t ∧ p.after = after := by
  rw [guildsLoop]
  by_cases hmax : max = 0
  · rw [dif_pos hmax]
    left
    rfl
  · rw [dif_neg hmax]
    dsimp only
    split <;> split <;> (right; exact ⟨_, _, rfl, rfl⟩)

/-- The page trace of the pagination loop is well-formed: every limit lies
in [1, 100], every non-final page is full, and each subsequent cursor is the
final identifier of the prior page. -/
theorem guildsLoop_pages (src : List Guild) :
    ∀ (max : Nat) (after : Snowflake),
      pagesWellFormed (guildsLoop src max after).2 = true := by
  intro max
  induction max using Nat.strong_induction_on with
  | _ max ih =>
    intro after
    rw [guildsLoop]
    by_cases hmax : max = 0
    · rw [dif_pos hmax]
      rfl
    · rw [dif_neg hmax]
      generalize hfe : (if 100 > max then max else 100) = fetch
      have hf1 : fetch ≠ 0 := by rw [← hfe]; split <;> omega
      have hf2 : fetch ≤ 100 := by rw [← hfe]; split <;> omega
      rw [guildsAfter_clamped src after fetch hf1 hf2]
      dsimp only
      split
      next hlen =>
        simp [pagesWellFormed]
        omega
      next hlen =>
        have hf100 : fetch = 100 := by
          by_cases h100 : 100 > max
          · rw [if_pos h100] at hfe
            subst hfe
            rw [List.length_take] at hlen
            omega
          · rw [if_neg h100] at hfe
            omega
        subst hf100
        have htl : ((src.dropWhile (fun g => decide (g.id ≤ after))).take 100).length =
            min 100 (src.dropWhile (fun g => decide (g.id ≤ after))).length :=
          List.length_take 100 _
        have hremlen : 100 ≤ (src.dropWhile (fun g => decide (g.id ≤ after))).length := by
          omega
        have hm100 : 100 ≤ max := by
          by_cases h100 : 100 > max
          · rw [if_pos h100] at hfe
            omega
          · omega
        have hlen100 : ((src.dropWhile (fun g => decide (g.id ≤ after))).take 100).length
            = 100 := by omega
        have hmap : (((src.dropWhile (fun g => decide (g.id ≤ after))).take 100).map
              (fun g => g.id)).getLast? =
            some (((src.dropWhile (fun g => decide (g.id ≤ after))).take 100).getD
              99 dummyGuild).id := by
          rw [List.getLast?_eq_getElem?, List.length_map, hlen100]
          rw [List.getElem?_map]
          rw [List.getElem?_eq_getElem (by omega : 99 <
            ((src.dropWhile (fun g => decide (g.id ≤ after))).take 100).length)]
          rw [List.getD_eq_getElem?_getD]
          rw [List.getElem?_eq_getElem (by omega : 99 <
            ((src.dropWhile (fun g => decide (g.id ≤ after))).take 100).length)]
          rfl
        have hrest := ih (max - 100) (by omega)
          ((((src.dropWhile (fun g => decide (g.id ≤ after))).take 100).getD
            99 dummyGuild).id)
        rcases guildsLoop_pages_head src (max - 100)
            ((((src.dropWhile (fun g => decide (g.id ≤ after))).take 100).getD
              99 dummyGuild).id) with hemp | ⟨q, t, hqt, hqa⟩
        · rw [hemp]
          simp [pagesWellFormed]
        · rw [hqt]
          rw [hqt] at hrest
          simp only [pagesWellFormed, Bool.and_eq_true, decide_eq_true_eq]
          refine ⟨⟨⟨⟨by omega, by omega⟩, by omega⟩, ?_⟩, hrest⟩
          rw [hmap, hqa]

/-- C2: for a backing source holding its guilds in strictly ascending
identifier order (with positive identifiers, as snowflakes are) and a
requested maximum M, Client.Guilds returns exactly the first min(M, T) of
the T guilds, and its page trace is well-formed: every request's limit lies
in [1, 100], every page followed by another returned exactly as many guilds
as requested (so enumeration stops at the first short page), and each
subsequent page's after cursor equals the final entity identifier of the
prior page. -/
theorem c2_guilds_pagination (src : List Guild) (M : Nat)
    (hasc : ascIDs src) (hpos : ∀ g ∈ src, 0 < g.id) :
    (clientGuilds src M).1 = src.take M ∧
    (clientGuilds src M).1.length = min M src.length ∧
    pagesWellFormed (clientGuilds src M).2 = true := by
  have hdrop : src.dropWhile (fun g => decide (g.id ≤ 0)) = src :=
    dropWhile_eq_self_of_all_false (fun g => decide (g.id ≤ 0)) src (fun x hx => by
      have := hpos x hx
      simp
      exact this.ne')
  have htake : (clientGuilds src M).1 = src.take M := by
    rw [clientGuilds, guildsLoop_take src hasc M 0, hdrop]
  refine ⟨htake, ?_, guildsLoop_pages src M 0⟩
  rw [htake, List.length_take]

/-- A two-guild ascending source for the pagination witness. -/
def srcW : List Guild := [{ id := 1, name := "a" }, { id := 2, name := "b" }]

/-- C2 witness: the pagination contract at a concrete two-guild source with
requested maximum 5. -/
theorem c2_guilds_pagination_witness :
    (clientGuilds srcW 5).1 = srcW.take 5 ∧
    (clientGuilds srcW 5).1.length = min 5 srcW.length ∧
    pagesWellFormed (clientGuilds srcW 5).2 = true :=
  c2_guilds_pagination srcW 5 (by simp [ascIDs, srcW]) (by decide)

end Arikawa
